import Mathlib

/-!
Verification of the Real-Time Height Measurement System against its
natural-language specification.

The repository sources available here are the React client:
`frontend/src/App.tsx` (top-level state and reset), the camera component
(WebSocket message handling, frame capture, reset), `HeightDisplay`
(status messages and confidence rendering) and `CalibrationComponent`
(calibration UI).  The backend Calibration Estimator is not among the
sources; it is modelled from the spec where needed (clearly marked).

Real numbers of the source (JS numbers / Python floats) are embedded as
rationals; JSON message objects become Lean structures whose optional
fields are `Option`-typed.
-/

/- ===================================================================
   Calibration Estimator (spec section 4.2).
   =================================================================== -/

/-- Modelled from the spec: the backend Calibration Estimator (spec
section 4.2) is not part of the repository sources in this snapshot (only the
React client is present), so its sample-buffer state machine is modelled
from the words of the spec: `Uncalibrated` holds the ordered sample buffer,
`Calibrated` holds the learned cm-per-pixel scale. -/
inductive CalibrationState where
  | Uncalibrated (samples : List ℚ)
  | Calibrated (scale_cm_per_px : ℚ)
  deriving DecidableEq, Repr

/-- Target sample count for auto-calibration (spec: 40). -/
def targetSamples : ℕ := 40

/-- Reference adult torso length in centimeters (spec: 50 cm). -/
def referenceTorsoCm : ℚ := 50

/-- Number of samples discarded from each tail of the sorted buffer
(spec: trim the lowest and highest 10 percent of 40, i.e. 4 each). -/
def tailTrim : ℕ := 4

/-- Modelled from the spec: sort the samples by pixel length and keep the
middle part, discarding `tailTrim` samples from each tail. -/
def trimmedSamples (l : List ℚ) : List ℚ :=
  ((l.insertionSort (· ≤ ·)).drop tailTrim).take (l.length - 2 * tailTrim)

/-- Modelled from the spec: arithmetic mean of the retained (trimmed)
samples, the `torso_px` value. -/
def trimmedMean (l : List ℚ) : ℚ :=
  (trimmedSamples l).sum / ((trimmedSamples l).length : ℚ)

/-- Modelled from the spec: on reaching the target count, compute the
trimmed mean as `torso_px` and set `scale_cm_per_px = 50 / torso_px`;
if `torso_px` is zero or negative, remain `Uncalibrated` with a cleared
buffer (never divide by zero). -/
def finalizeCalibration (samples : List ℚ) : CalibrationState :=
  let torso_px := trimmedMean samples
  if 0 < torso_px then CalibrationState.Calibrated (referenceTorsoCm / torso_px)
  else CalibrationState.Uncalibrated []

/-- Modelled from the spec: while `Uncalibrated`, append one torso-length
pixel sample to the buffer; when the buffer reaches the target count,
finalize the calibration.  Once `Calibrated`, samples are ignored. -/
def addSample (st : CalibrationState) (x : ℚ) : CalibrationState :=
  match st with
  | CalibrationState.Calibrated s => CalibrationState.Calibrated s
  | CalibrationState.Uncalibrated samples =>
      if (samples ++ [x]).length = targetSamples then finalizeCalibration (samples ++ [x])
      else CalibrationState.Uncalibrated (samples ++ [x])

/-- Feed a sequence of torso samples, one frame at a time, in order. -/
def feedSamples (st : CalibrationState) (xs : List ℚ) : CalibrationState :=
  xs.foldl addSample st

/-- The synthetic pixel samples 1, 2, ..., 40 used by the trimming test of the spec
-/
def sampleList40 : List ℚ :=
  [1, 2, 3, 4, 5, 6, 7, 8, 9, 10, 11, 12, 13, 14, 15, 16, 17, 18, 19, 20,
   21, 22, 23, 24, 25, 26, 27, 28, 29, 30, 31, 32, 33, 34, 35, 36, 37, 38, 39, 40]

/-- The first 39 of the synthetic pixel samples. -/
def sampleList39 : List ℚ :=
  [1, 2, 3, 4, 5, 6, 7, 8, 9, 10, 11, 12, 13, 14, 15, 16, 17, 18, 19, 20,
   21, 22, 23, 24, 25, 26, 27, 28, 29, 30, 31, 32, 33, 34, 35, 36, 37, 38, 39]

/- ===================================================================
   Client message model
   (CameraComponent `ws.onmessage` together with the `App.tsx`
   callbacks `handleHeightUpdate`, `handleDetectionToggle`).
   =================================================================== -/

/-- Payload of a `height_update` message (the `data.height` object), as
consumed by `App.tsx` and `HeightDisplay`. -/
structure HeightData where
  height_cm : ℚ
  height_feet_inches : String
  confidence : ℚ
  deriving DecidableEq, Repr

/-- The inbound message types the client `switch` handles. -/
inductive MsgType where
  | calibrating
  | height_update
  | info
  | no_person
  | reset_ack
  deriving DecidableEq, Repr

/-- An inbound WebSocket message as parsed by `ws.onmessage`: a `type`
tag plus the optional fields the handler reads (`progress`, `height`,
`image`). -/
structure InMsg where
  type : MsgType
  progress : Option ℤ
  height : Option HeightData
  image : Option String
  deriving DecidableEq, Repr

/-- The client session state: the `App.tsx` state (`isCalibrated`,
`heightData`, `isDetecting`, `cameraError`) together with the camera
own state of the camera component (`isDetecting` of the camera, `processedImage`,
`calibrationProgress`). -/
structure ClientState where
  isCalibrated : Bool
  heightData : Option HeightData
  isDetecting : Bool
  cameraError : Option String
  camIsDetecting : Bool
  processedImage : Option String
  calibrationProgress : Option ℤ
  deriving DecidableEq, Repr

/-- App.tsx `handleHeightUpdate`: store the incoming data; if it is
present with `height_cm > 0`, set the calibrated flag. -/
def handleHeightUpdate (d : Option HeightData) (s : ClientState) : ClientState :=
  let s1 := { s with heightData := d }
  match d with
  | some h => if 0 < h.height_cm then { s1 with isCalibrated := true } else s1
  | none => s1

/-- App.tsx `handleDetectionToggle`: store the detecting flag. -/
def handleDetectionToggle (b : Bool) (s : ClientState) : ClientState :=
  { s with isDetecting := b }

/-- The data URL prefix the camera component prepends to a received
base64 image. -/
def jsDataUrl (img : String) : String := "data:image/jpeg;base64," ++ img

/-- First step of `ws.onmessage`: `if (data.image) setProcessedImage(...)`,
performed for every inbound message before the `switch` on its type. -/
def applyImageField (m : InMsg) (s : ClientState) : ClientState :=
  match m.image with
  | some img => { s with processedImage := some (jsDataUrl img) }
  | none => s

/-- The `switch (data.type)` of `ws.onmessage`.  JavaScript
`data.progress || 0` on an integer-or-absent field is `Option.getD 0`:
an absent field gives 0, and `p || 0 = p` for nonzero `p` while
`0 || 0 = 0`. -/
def applyMessageCase (m : InMsg) (s : ClientState) : ClientState :=
  match m.type with
  | MsgType.calibrating =>
      let s := { s with calibrationProgress := some (m.progress.getD 0) }
      let s := handleHeightUpdate none s
      let s := handleDetectionToggle false s
      { s with camIsDetecting := false }
  | MsgType.height_update =>
      let s := { s with calibrationProgress := none }
      let s := handleHeightUpdate m.height s
      let s := handleDetectionToggle true s
      { s with camIsDetecting := true }
  | MsgType.info =>
      let s := handleHeightUpdate none s
      let s := handleDetectionToggle false s
      { s with camIsDetecting := false }
  | MsgType.no_person =>
      let s := handleHeightUpdate none s
      let s := handleDetectionToggle false s
      { s with camIsDetecting := false }
  | MsgType.reset_ack =>
      { s with calibrationProgress := some 0 }

/-- Full handling of one inbound message (`ws.onmessage`): process the
optional image payload, then the `switch` on the message type. -/
def onMessage (m : InMsg) (s : ClientState) : ClientState :=
  applyMessageCase m (applyImageField m s)

/-- Handling of a sequence of inbound messages in arrival order. -/
def onMessages (s : ClientState) (ms : List InMsg) : ClientState :=
  ms.foldl (fun st m => onMessage m st) s

/- ===================================================================
   Reset and frame capture (CameraComponent `resetSystem`,
   `captureFrame`; App.tsx `handleReset`).
   =================================================================== -/

/-- WebSocket ready states (the browser constants). -/
inductive WsReadyState where
  | CONNECTING
  | OPEN
  | CLOSING
  | CLOSED
  deriving DecidableEq, Repr

/-- Outbound client messages before serialization. -/
inductive OutMsg where
  | reset
  | image (data : String)
  deriving DecidableEq, Repr

/-- JSON serialization as produced by `JSON.stringify` on the object
literals the client sends. -/
def serializeOut : OutMsg → String
  | OutMsg.reset => "\x7b\"type\":\"reset\"\x7d"
  | OutMsg.image d => "\x7b\"type\":\"image\",\"data\":\"" ++ d ++ "\"\x7d"

/-- CameraComponent `resetSystem`: send a reset message when the socket
exists and is OPEN (and nothing otherwise), clear the processed image,
set the local calibration progress to 0.  Returns the new state and the
list of serialized messages sent. -/
def resetSystem (ws : Option WsReadyState) (s : ClientState) :
    ClientState × List String :=
  let sends := if ws = some WsReadyState.OPEN then [serializeOut OutMsg.reset] else []
  ({ s with processedImage := none, calibrationProgress := some 0 }, sends)

/-- App.tsx `handleReset`: clear the app-level state, then invoke the
camera component `resetSystem` (the camera ref is the rendered
component). -/
def handleReset (ws : Option WsReadyState) (s : ClientState) :
    ClientState × List String :=
  let s1 := { s with isCalibrated := false, heightData := none,
                     isDetecting := false, cameraError := none }
  resetSystem ws s1

/-- The video element state `captureFrame` reads: intrinsic dimensions
and, abstractly, the base64 JPEG encoding of the current frame (the
result of `canvas.toDataURL` after `drawImage`, with the data URL header
split off). -/
structure VideoState where
  videoWidth : ℕ
  videoHeight : ℕ
  frameJpegBase64 : String
  deriving DecidableEq, Repr

/-- CameraComponent `captureFrame`: return early when the video element
or the socket is missing or the socket is not OPEN; otherwise, when the
video has positive dimensions, draw the frame and send one image
message.  The 2D canvas context of a freshly created canvas is modelled
as always available.  Returns the list of serialized messages sent. -/
def captureFrame (video : Option VideoState) (ws : Option WsReadyState) :
    List String :=
  match video, ws with
  | none, _ => []
  | some _, none => []
  | some v, some w =>
      if w ≠ WsReadyState.OPEN then []
      else if 0 < v.videoWidth ∧ 0 < v.videoHeight then
        [serializeOut (OutMsg.image v.frameJpegBase64)]
      else []

/- ===================================================================
   HeightDisplay (status message and confidence rendering).
   =================================================================== -/

/-- Status message categories of `HeightDisplay`. -/
inductive StatusType where
  | info
  | warning
  | error
  deriving DecidableEq, Repr

/-- A status message as rendered by `HeightDisplay` (type and text). -/
structure StatusMessage where
  type : StatusType
  message : String
  deriving DecidableEq, Repr

/-- Text of the not-yet-calibrated status message. -/
def autoCalibrateMsg : String :=
  "System will auto-calibrate when you stand in front of the camera with full body visible."

/-- Text of the not-detecting status message. -/
def standInFrontMsg : String :=
  "Stand in front of the camera to measure your height."

/-- Text of the low-confidence warning. -/
def lowConfidenceMsg : String :=
  "Low confidence detection. Try standing straight and ensure good lighting."

/-- HeightDisplay `getStatusMessage`: info when not calibrated, info when
not detecting, warning when height data is present with
`confidence < 0.5`, otherwise no message. -/
def getStatusMessage (isCalibrated isDetecting : Bool)
    (heightData : Option HeightData) : Option StatusMessage :=
  if !isCalibrated then some ⟨StatusType.info, autoCalibrateMsg⟩
  else if !isDetecting then some ⟨StatusType.info, standInFrontMsg⟩
  else
    match heightData with
    | some h =>
        if h.confidence < 1 / 2 then some ⟨StatusType.warning, lowConfidenceMsg⟩
        else none
    | none => none

/-- Fraction passed to the confidence bar fill:
`heightData.confidence / 100` (the confidence is a 0..100 value; the bar
marker is placed at `confidence * 100 %` of that fraction). -/
def confidenceBarFill (h : HeightData) : ℚ := h.confidence / 100

/-- Whether the low-confidence warning is rendered: the status message is
shown exactly when `getStatusMessage` is non-null, and the warning is
the unique warning-typed message. -/
def lowConfidenceWarningShown (c d : Bool) (hd : Option HeightData) : Bool :=
  match getStatusMessage c d hd with
  | some m => m.type == StatusType.warning
  | none => false

/- ===================================================================
   CalibrationComponent (render and manual-calibration handler).
   =================================================================== -/

/-- Identifiers of click handlers wired to buttons in
`CalibrationComponent`. -/
inductive HandlerId where
  | calibrate
  deriving DecidableEq, Repr

/-- The guard of the manual calibration form in the JSX: the literal
constant `false && (...)`. -/
def showManualCalibration : Bool := false

/-- What `CalibrationComponent` renders, as far as the claims are
concerned: the status badge (its `isCalibrated` prop and text), whether
the manual calibration form is shown, and the click handlers of the
buttons actually rendered. -/
structure CalibrationRender where
  statusBadgeIsCalibrated : Bool
  statusBadgeText : String
  manualFormShown : Bool
  buttonHandlers : List HandlerId
  deriving DecidableEq, Repr

/-- The render function of `CalibrationComponent`: the badge is
hard-coded with `isCalibrated={true}`, and the manual form (with the
only button, whose handler is `handleCalibrate`) is guarded by the
constant-false condition.  The own `isCalibrated` prop of the component is
not read anywhere in the render. -/
def renderCalibrationComponent (_isCalibrated : Bool) : CalibrationRender :=
  { statusBadgeIsCalibrated := true
    statusBadgeText := "Auto-Calibrated"
    manualFormShown := showManualCalibration
    buttonHandlers := if showManualCalibration then [HandlerId.calibrate] else [] }

/-- The form state `handleCalibrate` reads: the resolved reference
object height in cm and the parsed pixel height (`none` models an empty
or non-numeric input). -/
structure CalibrateForm where
  referenceObjectHeightCm : ℚ
  referenceHeightPixels : Option ℚ
  deriving DecidableEq, Repr

/-- Body of the POST /calibrate request. -/
structure CalibrateRequest where
  reference_height_cm : ℚ
  reference_height_pixels : ℚ
  deriving DecidableEq, Repr

/-- CalibrationComponent `handleCalibrate`: validate the form and, when
valid, issue the POST /calibrate request (`some req`); `none` means no
request is issued. -/
def handleCalibrate (f : CalibrateForm) : Option CalibrateRequest :=
  match f.referenceHeightPixels with
  | none => none
  | some px =>
      if px ≤ 0 then none
      else if f.referenceObjectHeightCm ≤ 0 then none
      else some ⟨f.referenceObjectHeightCm, px⟩

/- ===================================================================
   Theorems.
   =================================================================== -/

theorem addSample_not_full (buf : List ℚ) (x : ℚ)
    (h : buf.length + 1 ≠ targetSamples) :
    addSample (CalibrationState.Uncalibrated buf) x =
      CalibrationState.Uncalibrated (buf ++ [x]) := by
  simp [addSample, h]

theorem addSample_full (buf : List ℚ) (x : ℚ)
    (h : buf.length + 1 = targetSamples) :
    addSample (CalibrationState.Uncalibrated buf) x =
      finalizeCalibration (buf ++ [x]) := by
  simp [addSample, h]

theorem feedSamples_below_target (xs : List ℚ) :
    ∀ buf : List ℚ, buf.length + xs.length < targetSamples →
    feedSamples (CalibrationState.Uncalibrated buf) xs =
      CalibrationState.Uncalibrated (buf ++ xs) := by
  induction xs with
  | nil => intro buf _; simp [feedSamples]
  | cons x t ih =>
      intro buf h
      have hlen : buf.length + 1 ≠ targetSamples := by
        simp only [List.length_cons] at h
        omega
      have hstep := addSample_not_full buf x hlen
      have h2 : (buf ++ [x]).length + t.length < targetSamples := by
        simp only [List.length_append, List.length_singleton, List.length_cons, List.length_nil] at h ⊢
        omega
      calc feedSamples (CalibrationState.Uncalibrated buf) (x :: t)
          = feedSamples (addSample (CalibrationState.Uncalibrated buf) x) t := rfl
        _ = feedSamples (CalibrationState.Uncalibrated (buf ++ [x])) t := by rw [hstep]
        _ = CalibrationState.Uncalibrated ((buf ++ [x]) ++ t) := ih (buf ++ [x]) h2
        _ = CalibrationState.Uncalibrated (buf ++ x :: t) := by
              rw [List.append_assoc, List.singleton_append]

theorem feedSamples_fill_target (xs : List ℚ) :
    ∀ buf : List ℚ, buf.length + xs.length = targetSamples → xs ≠ [] →
    feedSamples (CalibrationState.Uncalibrated buf) xs =
      finalizeCalibration (buf ++ xs) := by
  induction xs with
  | nil => intro buf _ hne; exact absurd rfl hne
  | cons x t ih =>
      intro buf h _
      cases t with
      | nil =>
          have h1 : buf.length + 1 = targetSamples := by
            simpa using h
          have hstep := addSample_full buf x h1
          calc feedSamples (CalibrationState.Uncalibrated buf) [x]
              = addSample (CalibrationState.Uncalibrated buf) x := rfl
            _ = finalizeCalibration (buf ++ [x]) := hstep
      | cons y t2 =>
          have hlen : buf.length + 1 ≠ targetSamples := by
            simp only [List.length_cons] at h
            omega
          have hstep := addSample_not_full buf x hlen
          have h2 : (buf ++ [x]).length + (y :: t2).length = targetSamples := by
            simp only [List.length_append, List.length_singleton, List.length_cons, List.length_nil] at h ⊢
            omega
          calc feedSamples (CalibrationState.Uncalibrated buf) (x :: y :: t2)
              = feedSamples (addSample (CalibrationState.Uncalibrated buf) x) (y :: t2) := rfl
            _ = feedSamples (CalibrationState.Uncalibrated (buf ++ [x])) (y :: t2) := by
                  rw [hstep]
            _ = finalizeCalibration ((buf ++ [x]) ++ (y :: t2)) :=
                  ih (buf ++ [x]) h2 (by simp)
            _ = finalizeCalibration (buf ++ x :: y :: t2) := by
                  rw [List.append_assoc, List.singleton_append]

/-- The middle 32 of the sorted synthetic samples: 5, 6, ..., 36. -/
def middle32 : List ℚ :=
  [5, 6, 7, 8, 9, 10, 11, 12, 13, 14, 15, 16, 17, 18, 19, 20,
   21, 22, 23, 24, 25, 26, 27, 28, 29, 30, 31, 32, 33, 34, 35, 36]

theorem trimmedSamples_sampleList40 : trimmedSamples sampleList40 = middle32 := by
  decide

theorem trimmedMean_sampleList40 : trimmedMean sampleList40 = 41 / 2 := by
  rw [trimmedMean, trimmedSamples_sampleList40]
  norm_num [middle32, List.sum_cons, List.sum_nil]

/-- C1: When the sample buffer of the Calibration Estimator reaches exactly 40
torso-length samples, the session transitions to Calibrated with
`scale_cm_per_px` equal to 50 divided by the arithmetic mean of the middle
32 samples after sorting and discarding the 4 lowest and 4 highest; for
the input samples 1, 2, ..., 40 the resulting scale is 50 / 20.5; feeding
only 39 samples leaves the state Uncalibrated. -/
theorem calibration_forty_sample_transition :
    (∀ xs : List ℚ, xs.length = targetSamples → 0 < trimmedMean xs →
        feedSamples (CalibrationState.Uncalibrated []) xs =
          CalibrationState.Calibrated (referenceTorsoCm / trimmedMean xs))
    ∧ feedSamples (CalibrationState.Uncalibrated []) sampleList40 =
        CalibrationState.Calibrated (50 / (41 / 2))
    ∧ (∀ xs : List ℚ, xs.length = 39 →
        feedSamples (CalibrationState.Uncalibrated []) xs =
          CalibrationState.Uncalibrated xs) := by
  have hforty : ∀ xs : List ℚ, xs.length = targetSamples → 0 < trimmedMean xs →
      feedSamples (CalibrationState.Uncalibrated []) xs =
        CalibrationState.Calibrated (referenceTorsoCm / trimmedMean xs) := by
    intro xs hlen hpos
    have hne : xs ≠ [] := by
      intro hnil
      rw [hnil] at hlen
      simp [targetSamples] at hlen
    rw [feedSamples_fill_target xs [] (by simpa using hlen) hne]
    simp only [List.nil_append, finalizeCalibration]
    rw [if_pos hpos]
  refine ⟨hforty, ?_, ?_⟩
  · have h := hforty sampleList40 (by decide)
      (by rw [trimmedMean_sampleList40]; norm_num)
    rw [h, trimmedMean_sampleList40]
    norm_num [referenceTorsoCm]
  · intro xs hlen
    have h := feedSamples_below_target xs []
      (by simp [hlen, targetSamples])
    simpa using h

/-- Witness for C1: instantiates the general 40-sample transition at the
synthetic samples 1..40 and the 39-sample case at 1..39. -/
theorem calibration_forty_sample_transition_witness :
    feedSamples (CalibrationState.Uncalibrated []) sampleList40 =
      CalibrationState.Calibrated (referenceTorsoCm / trimmedMean sampleList40)
    ∧ feedSamples (CalibrationState.Uncalibrated []) sampleList39 =
      CalibrationState.Uncalibrated sampleList39 :=
  ⟨calibration_forty_sample_transition.1 sampleList40 (by decide)
      (by rw [trimmedMean_sampleList40]; norm_num),
   calibration_forty_sample_transition.2.2 sampleList39 (by decide)⟩

theorem onMessage_isCalibrated_eq (m : InMsg) (s : ClientState) :
    (onMessage m s).isCalibrated =
      (s.isCalibrated ||
        ((m.type == MsgType.height_update) &&
          (match m.height with
           | some h => decide (0 < h.height_cm)
           | none => false))) := by
  obtain ⟨t, p, hh, img⟩ := m
  cases t <;> cases img <;> cases hh <;>
    simp [onMessage, applyMessageCase, applyImageField, handleHeightUpdate,
      handleDetectionToggle, apply_ite] <;>
    by_cases hc : 0 < ‹HeightData›.height_cm <;>
    simp [hc]

/-- C2: the calibrated flag is set true only by handling a height_update
message whose height_cm is greater than 0, and once true it is never set
false by handling any inbound message; over every sequence of inbound
messages (no reset), the calibrated flag is monotone. -/
theorem calibrated_flag_monotone :
    (∀ (m : InMsg) (s : ClientState), s.isCalibrated = true →
        (onMessage m s).isCalibrated = true)
    ∧ (∀ (m : InMsg) (s : ClientState), (onMessage m s).isCalibrated = true →
        s.isCalibrated = true ∨
          (m.type = MsgType.height_update ∧
            ∃ h, m.height = some h ∧ 0 < h.height_cm))
    ∧ (∀ (ms : List InMsg) (s : ClientState), s.isCalibrated = true →
        (onMessages s ms).isCalibrated = true) := by
  have mono : ∀ (m : InMsg) (s : ClientState), s.isCalibrated = true →
      (onMessage m s).isCalibrated = true := by
    intro m s hs
    rw [onMessage_isCalibrated_eq, hs, Bool.true_or]
  refine ⟨mono, ?_, ?_⟩
  · intro m s h
    rw [onMessage_isCalibrated_eq, Bool.or_eq_true] at h
    rcases h with h | h
    · exact Or.inl h
    · rw [Bool.and_eq_true, beq_iff_eq] at h
      refine Or.inr ⟨h.1, ?_⟩
      rcases hm : m.height with _ | hd
      · rw [hm] at h
        simp at h
      · rw [hm] at h
        refine ⟨hd, rfl, ?_⟩
        simpa using h.2
  · intro ms
    induction ms with
    | nil => intro s hs; exact hs
    | cons m t ih =>
        intro s hs
        exact ih (onMessage m s) (mono m s hs)

/-- Witness for C2: instantiates preservation and the sequence version at
concrete messages and a concrete calibrated state. -/
theorem calibrated_flag_monotone_witness :
    (onMessage ⟨MsgType.no_person, none, none, none⟩
        ⟨true, none, true, none, true, none, none⟩).isCalibrated = true
    ∧ (onMessages ⟨true, none, true, none, true, none, none⟩
        [⟨MsgType.calibrating, some 10, none, none⟩,
         ⟨MsgType.info, none, none, none⟩,
         ⟨MsgType.reset_ack, none, none, none⟩]).isCalibrated = true :=
  ⟨calibrated_flag_monotone.1 ⟨MsgType.no_person, none, none, none⟩
      ⟨true, none, true, none, true, none, none⟩ rfl,
   calibrated_flag_monotone.2.2
      [⟨MsgType.calibrating, some 10, none, none⟩,
       ⟨MsgType.info, none, none, none⟩,
       ⟨MsgType.reset_ack, none, none, none⟩]
      ⟨true, none, true, none, true, none, none⟩ rfl⟩

/-- C3: reset is idempotent on the client session state, and one reset
already yields the fully cleared state (height data cleared, calibrated
false, detection flag false, camera error cleared, calibration progress
0, processed image cleared). -/
theorem reset_idempotent :
    ∀ (ws : Option WsReadyState) (s : ClientState),
      (handleReset ws (handleReset ws s).1).1 = (handleReset ws s).1
      ∧ (handleReset ws s).1 =
          { isCalibrated := false, heightData := none, isDetecting := false,
            cameraError := none, camIsDetecting := s.camIsDetecting,
            processedImage := none, calibrationProgress := some 0 } := by
  intro ws s
  exact ⟨rfl, rfl⟩

/-- C4: every received calibrating message records the value of its
progress field (defaulting to 0 when absent) as the current calibration
progress and clears the height reading and the detection flags. -/
theorem calibrating_message_effect :
    ∀ (m : InMsg) (s : ClientState), m.type = MsgType.calibrating →
      (onMessage m s).calibrationProgress = some (m.progress.getD 0)
      ∧ (onMessage m s).heightData = none
      ∧ (onMessage m s).isDetecting = false
      ∧ (onMessage m s).camIsDetecting = false := by
  intro m s ht
  obtain ⟨t, p, hh, img⟩ := m
  simp only [InMsg.type] at ht
  subst ht
  cases img <;>
    simp [onMessage, applyMessageCase, applyImageField, handleHeightUpdate,
      handleDetectionToggle]

/-- Demo height payload used by witnesses. -/
def demoHeight : HeightData := ⟨170, "5 ft 7 in", 85⟩

/-- Demo client state used by witnesses. -/
def demoState : ClientState := ⟨false, some demoHeight, true, none, true, none, none⟩

/-- Witness for C4: instantiates the calibrating-message effect at a
concrete message with progress 57 and a concrete state. -/
theorem calibrating_message_effect_witness :
    (onMessage ⟨MsgType.calibrating, some 57, none, none⟩ demoState).calibrationProgress =
      some ((some (57 : ℤ)).getD 0)
    ∧ (onMessage ⟨MsgType.calibrating, some 57, none, none⟩ demoState).heightData = none
    ∧ (onMessage ⟨MsgType.calibrating, some 57, none, none⟩ demoState).isDetecting = false
    ∧ (onMessage ⟨MsgType.calibrating, some 57, none, none⟩ demoState).camIsDetecting = false :=
  calibrating_message_effect ⟨MsgType.calibrating, some 57, none, none⟩ demoState rfl

/-- An info message that carries an image payload. -/
def infoImgMsg : InMsg := ⟨MsgType.info, none, none, some "QUJD"⟩

/-- A concrete state with no processed image. -/
def imgFreeState : ClientState := ⟨true, some demoHeight, true, none, true, none, some 100⟩

/-- Counterexample for C5 as stated: handling an info message that
carries an image payload changes the processed image, so more than the
height data and detection flag change. -/
theorem info_frame_condition_counterexample :
    infoImgMsg.type = MsgType.info
    ∧ (onMessage infoImgMsg imgFreeState).processedImage ≠ imgFreeState.processedImage := by
  refine ⟨rfl, ?_⟩
  simp [onMessage, applyMessageCase, applyImageField, handleHeightUpdate,
    handleDetectionToggle, infoImgMsg, imgFreeState]

/-- C5 (amended): handling an info or no_person message clears the
height reading and turns the detection flags off, leaves calibration
progress, calibrated flag and camera error unchanged, and leaves the
processed image unchanged unless the message carries an image payload,
in which case the processed image is replaced by it. -/
theorem info_no_person_effect :
    ∀ (m : InMsg) (s : ClientState),
      m.type = MsgType.info ∨ m.type = MsgType.no_person →
      (onMessage m s).heightData = none
      ∧ (onMessage m s).isDetecting = false
      ∧ (onMessage m s).camIsDetecting = false
      ∧ (onMessage m s).calibrationProgress = s.calibrationProgress
      ∧ (onMessage m s).isCalibrated = s.isCalibrated
      ∧ (onMessage m s).cameraError = s.cameraError
      ∧ (onMessage m s).processedImage =
          (match m.image with
           | some img => some (jsDataUrl img)
           | none => s.processedImage) := by
  intro m s ht
  obtain ⟨t, p, hh, img⟩ := m
  simp only [InMsg.type] at ht
  rcases ht with ht | ht <;> subst ht <;> cases img <;>
    simp [onMessage, applyMessageCase, applyImageField, handleHeightUpdate,
      handleDetectionToggle]

/-- Witness for C5 (amended): instantiates the info and no_person effect
at a concrete message without an image payload and a concrete state. -/
theorem info_no_person_effect_witness :
    (onMessage ⟨MsgType.no_person, none, none, none⟩ imgFreeState).heightData = none
    ∧ (onMessage ⟨MsgType.no_person, none, none, none⟩ imgFreeState).isDetecting = false
    ∧ (onMessage ⟨MsgType.no_person, none, none, none⟩ imgFreeState).camIsDetecting = false
    ∧ (onMessage ⟨MsgType.no_person, none, none, none⟩ imgFreeState).calibrationProgress =
        imgFreeState.calibrationProgress
    ∧ (onMessage ⟨MsgType.no_person, none, none, none⟩ imgFreeState).isCalibrated =
        imgFreeState.isCalibrated
    ∧ (onMessage ⟨MsgType.no_person, none, none, none⟩ imgFreeState).cameraError =
        imgFreeState.cameraError
    ∧ (onMessage ⟨MsgType.no_person, none, none, none⟩ imgFreeState).processedImage =
        (match (none : Option String) with
         | some img => some (jsDataUrl img)
         | none => imgFreeState.processedImage) :=
  info_no_person_effect ⟨MsgType.no_person, none, none, none⟩ imgFreeState (Or.inr rfl)

/-- C6: the reset_ack case of the message handler sets the calibration
progress to exactly 0 and changes nothing else; the full handler does the
same whenever the message carries no image payload. -/
theorem reset_ack_effect :
    ∀ (m : InMsg) (s : ClientState), m.type = MsgType.reset_ack →
      applyMessageCase m s = { s with calibrationProgress := some 0 }
      ∧ (m.image = none → onMessage m s = { s with calibrationProgress := some 0 }) := by
  intro m s ht
  obtain ⟨t, p, hh, img⟩ := m
  simp only [InMsg.type] at ht
  subst ht
  refine ⟨rfl, ?_⟩
  intro himg
  simp only [InMsg.image] at himg
  subst himg
  rfl

/-- Witness for C6: instantiates the reset_ack effect at a concrete
message without an image payload and a concrete state. -/
theorem reset_ack_effect_witness :
    applyMessageCase ⟨MsgType.reset_ack, none, none, none⟩ imgFreeState =
      { imgFreeState with calibrationProgress := some 0 }
    ∧ onMessage ⟨MsgType.reset_ack, none, none, none⟩ imgFreeState =
      { imgFreeState with calibrationProgress := some 0 } :=
  ⟨(reset_ack_effect ⟨MsgType.reset_ack, none, none, none⟩ imgFreeState rfl).1,
   (reset_ack_effect ⟨MsgType.reset_ack, none, none, none⟩ imgFreeState rfl).2 rfl⟩

/-- C7: the client reset operation sends exactly one reset JSON message
when the WebSocket is OPEN and nothing otherwise; in both cases it sets
the local calibration progress to 0 and clears the processed image. -/
theorem reset_system_sends :
    ∀ (ws : Option WsReadyState) (s : ClientState),
      (resetSystem ws s).2 =
        (if ws = some WsReadyState.OPEN then ["\x7b\"type\":\"reset\"\x7d"] else [])
      ∧ (resetSystem ws s).2.length ≤ 1
      ∧ (resetSystem ws s).1.calibrationProgress = some 0
      ∧ (resetSystem ws s).1.processedImage = none := by
  intro ws s
  refine ⟨rfl, ?_, rfl, rfl⟩
  by_cases h : ws = some WsReadyState.OPEN <;> simp [resetSystem, h]

/-- C8: the per-frame capture step sends a message exactly when the
socket is OPEN and the video element exists with strictly positive
dimensions; at most one message per invocation, and any sent message is
the serialized image message carrying the base64 JPEG of the current
frame. -/
theorem capture_frame_sends :
    ∀ (video : Option VideoState) (ws : Option WsReadyState),
      (captureFrame video ws ≠ [] ↔
        ∃ v, video = some v ∧ ws = some WsReadyState.OPEN ∧
          0 < v.videoWidth ∧ 0 < v.videoHeight)
      ∧ (captureFrame video ws).length ≤ 1
      ∧ (∀ msg ∈ captureFrame video ws,
          ∃ v, video = some v ∧ msg = serializeOut (OutMsg.image v.frameJpegBase64)) := by
  intro video ws
  rcases video with _ | v
  · simp [captureFrame]
  · rcases ws with _ | w
    · simp [captureFrame]
    · by_cases hw : w = WsReadyState.OPEN
      · subst hw
        by_cases hd : 0 < v.videoWidth ∧ 0 < v.videoHeight
        · simp [captureFrame, hd, hd.1, hd.2]
        · simp [captureFrame, hd]
      · simp [captureFrame, hw]

/-- The video element state used by the C8 witness. -/
def demoVideo : VideoState := ⟨640, 480, "ZnJhbWU="⟩

/-- Witness for C8: a concrete OPEN-socket, 640 by 480 video environment
in which one image message is sent, instantiating each part. -/
theorem capture_frame_sends_witness :
    captureFrame (some demoVideo) (some WsReadyState.OPEN) ≠ []
    ∧ (captureFrame (some demoVideo) (some WsReadyState.OPEN)).length ≤ 1
    ∧ ∃ v, (some demoVideo : Option VideoState) = some v ∧
        serializeOut (OutMsg.image "ZnJhbWU=") =
          serializeOut (OutMsg.image v.frameJpegBase64) :=
  ⟨(capture_frame_sends (some demoVideo) (some WsReadyState.OPEN)).1.mpr
      ⟨demoVideo, rfl, rfl, by decide, by decide⟩,
   (capture_frame_sends (some demoVideo) (some WsReadyState.OPEN)).2.1,
   (capture_frame_sends (some demoVideo) (some WsReadyState.OPEN)).2.2
      (serializeOut (OutMsg.image "ZnJhbWU=")) (by simp [captureFrame, demoVideo])⟩

/-- C9: the low-confidence warning is rendered exactly when the system
is calibrated, detecting, height data is present and its confidence is
below 0.5, while the same confidence field is rendered on a 0..100
percent scale (divided by 100 for the bar fill); hence for any
confidence in the interval from 0.5 to 100 the warning is never shown. -/
theorem low_confidence_warning_iff :
    (∀ (c d : Bool) (hd : Option HeightData),
        lowConfidenceWarningShown c d hd = true ↔
          (c = true ∧ d = true ∧ ∃ h, hd = some h ∧ h.confidence < 1 / 2))
    ∧ (∀ (c d : Bool) (h : HeightData), 1 / 2 ≤ h.confidence → h.confidence ≤ 100 →
        lowConfidenceWarningShown c d (some h) = false
        ∧ 1 / 200 ≤ confidenceBarFill h ∧ confidenceBarFill h ≤ 1) := by
  have hshown : ∀ (c d : Bool) (hd : Option HeightData),
      lowConfidenceWarningShown c d hd =
        (c && d && (match hd with
                    | some h => decide (h.confidence < 1 / 2)
                    | none => false)) := by
    intro c d hd
    cases c <;> cases d <;> rcases hd with _ | h <;> try rfl
    show (match (if h.confidence < 1 / 2
                 then (some ⟨StatusType.warning, lowConfidenceMsg⟩ : Option StatusMessage)
                 else none) with
          | some m => m.type == StatusType.warning
          | none => false) = decide (h.confidence < 1 / 2)
    by_cases hc : h.confidence < 1 / 2
    · rw [if_pos hc, decide_eq_true hc]
      rfl
    · rw [if_neg hc, decide_eq_false hc]
  constructor
  · intro c d hd
    rw [hshown]
    rcases hd with _ | h <;> simp [and_assoc]
  · intro c d h h1 h2
    have hnc : ¬ h.confidence < 1 / 2 := not_lt.2 h1
    refine ⟨?_, ?_, ?_⟩
    · have hm : (match (some h : Option HeightData) with
                 | some h => decide (h.confidence < 1 / 2)
                 | none => false) = false := decide_eq_false hnc
      rw [hshown, hm, Bool.and_false]
    · rw [confidenceBarFill]
      linarith
    · rw [confidenceBarFill]
      linarith

/-- Witness for C9: a confidence of 85 (within the 0.5 to 100 band)
never shows the warning and fills the bar at 85 percent at most 1. -/
theorem low_confidence_warning_iff_witness :
    lowConfidenceWarningShown true true (some demoHeight) = false
    ∧ 1 / 200 ≤ confidenceBarFill demoHeight ∧ confidenceBarFill demoHeight ≤ 1 :=
  low_confidence_warning_iff.2 true true demoHeight
    (by norm_num [demoHeight]) (by norm_num [demoHeight])

/-- C10: for every value of its isCalibrated prop, CalibrationComponent
renders the status badge hard-coded as calibrated, the manual
calibration form is never shown, and no rendered button carries the
handleCalibrate handler, so the POST /calibrate branch is unreachable
from the rendered UI. -/
theorem auto_calibrated_badge_constant :
    ∀ b : Bool,
      (renderCalibrationComponent b).statusBadgeIsCalibrated = true
      ∧ (renderCalibrationComponent b).manualFormShown = false
      ∧ (renderCalibrationComponent b).buttonHandlers = [] := by
  intro b
  refine ⟨rfl, rfl, ?_⟩
  simp [renderCalibrationComponent, showManualCalibration]
